import Mathlib

/-!
Verification of the orchestration core of the `ito` voice-command assistant.

Shallow embedding of the Python sources:
  * `src/command_processor.py`        (`CommandProcessor`)
  * `src/context_manager.py`          (`ContextManager`)
  * `src/audio/audio_recorder.py`     (`AudioRecorder`)
  * `src/discrete_application_runner.py` (`DiscreteApplicationRunner`)
  * `src/keyboard/keyboard_manager.py` (`KeyboardManager`)
  * `src/types/status_messages.py`, `src/types/modes.py`, `src/types/context.py`

Stateful Python classes become explicit state records plus step functions;
thread interleavings become explicit event traces folded over step functions.
Each lock-protected critical section of the Python code is one atomic step.
-/

namespace Ito

/-- Whitespace characters stripped by Python `str.strip()` (ASCII range). -/
def isPyWhitespace (c : Char) : Bool :=
  c = ' ' || c = '\t' || c = '\n' || c = '\x0d' || c = '\x0b' || c = '\x0c'

/-- Python `s.strip()`: remove leading and trailing whitespace. -/
def pyStrip (s : String) : String :=
  ⟨((s.toList.dropWhile isPyWhitespace).reverse.dropWhile isPyWhitespace).reverse⟩

/-- Python truthiness of a `str`: `""` is falsy.  `not s or not s.strip()`
from the sources becomes `blankText s`. -/
def blankText (s : String) : Bool :=
  s.isEmpty || (pyStrip s).isEmpty

/-- Python truthiness of an optional `bytes` payload: `None` and `b""` are falsy. -/
def pyFalsyBytes : Option (List Nat) → Bool
  | none => true
  | some b => b.isEmpty

/-- `src/types/modes.py`: `CommandMode`, a two-variant enum.  The Python
`default_mode` alias is `DICTATION`. -/
inductive CommandMode where
  | DICTATION
  | ACTION
deriving DecidableEq, Repr

/-- Python `CommandMode.default_mode = DICTATION`. -/
def CommandMode.default_mode : CommandMode := .DICTATION

/-- `src/types/context.py`: the context snapshot dictionary.  During a fetch
every field may still be `None`, so all three fields are optional here. -/
structure Context where
  app_name : Option String
  primary_context : Option String
  page_context : Option String
deriving DecidableEq, Repr

/-! `src/types/status_messages.py`: the status strings the core pushes onto
the status queue (only the ones the orchestration core emits). -/

namespace StatusMsg

def READY : String := "Ready"

def BUSY : String := "Busy processing previous command"

def PROCESSING_BUSY : String := "Processing busy, please wait..."

def ALREADY_RECORDING : String := "Already recording..."

def HOTKEY_PRESSED : String := "Hotkey pressed, starting command processing..."

def RECORDING : String := "Recording command..."

def ERROR_RECORDING : String := "Error processing audio"

def TRANSCRIBING : String := "Transcribing command..."

end StatusMsg

/-! ## CommandProcessor (`src/command_processor.py`)

State: the `_is_processing` flag plus the number of worker threads currently
executing `_processing_thread_target` (the thread spawned by
`process_command`).  The body of `process_command` between taking and
releasing `self._lock`, and the `finally` block of the worker, are each one
atomic step. -/

namespace CommandProcessor

/-- Status-queue traffic of one step: messages put immediately, and messages
scheduled through `threading.Timer(delay, ...)` as `(delay in ms, message)`. -/
structure Emit where
  immediate : List String
  scheduled : List (Nat × String)
deriving DecidableEq, Repr

structure CPState where
  is_processing : Bool
  runningWorkers : Nat
deriving DecidableEq, Repr

def initState : CPState := { is_processing := false, runningWorkers := 0 }

structure SubmitResult where
  accepted : Bool
  state : CPState
  emit : Emit
deriving DecidableEq, Repr

/-- `CommandProcessor.process_command`: reject blank commands with a Ready
status; reject while `_is_processing` with a Busy status; otherwise set the
flag and start one worker thread, returning `True`. -/
def process_command (s : CPState) (_context_data : Context) (user_text_command : String)
    (user_command_audio : Option (List Nat)) (_mode : CommandMode) : SubmitResult :=
  if blankText user_text_command && pyFalsyBytes user_command_audio then
    { accepted := false, state := s, emit := { immediate := [StatusMsg.READY], scheduled := [] } }
  else if s.is_processing then
    { accepted := false, state := s, emit := { immediate := [StatusMsg.BUSY], scheduled := [] } }
  else
    { accepted := true,
      state := { is_processing := true, runningWorkers := s.runningWorkers + 1 },
      emit := { immediate := [], scheduled := [] } }

/-- The `finally` block of `_processing_thread_target`: clear the flag, emit
the terminal status, and schedule "Ready" through `threading.Timer(1.5, ...)`. -/
def worker_finish (s : CPState) (success : Bool) (error_msg : String) : CPState × Emit :=
  ({ is_processing := false, runningWorkers := s.runningWorkers - 1 },
   { immediate := [if success then "Processing successful"
                   else "Error processing: " ++ error_msg],
     scheduled := [(1500, "Ready")] })

/-- Interleaved events on a `CommandProcessor`: a `process_command` call, or a
worker thread reaching its `finally` block (engine returned or raised). -/
inductive CPEvent where
  | submit (ctx : Context) (cmd : String) (audio : Option (List Nat)) (mode : CommandMode)
  | finish (success : Bool) (err : String)
deriving Repr

def stepCP (s : CPState) : CPEvent → CPState
  | .submit ctx cmd audio mode => (process_command s ctx cmd audio mode).state
  | .finish success err => (worker_finish s success err).1

/-- The state after a sequence of interleaved events, from a fresh processor. -/
def runCP (evs : List CPEvent) : CPState := evs.foldl stepCP initState

/-- The processor invariant: the busy flag tracks the single worker. -/
def cpInv (s : CPState) : Prop :=
  s.is_processing = (s.runningWorkers == 1) ∧ s.runningWorkers ≤ 1

end CommandProcessor

/-! ## ContextManager (`src/context_manager.py`)

State: the shared snapshot `_current_context`, the `_fetch_thread` reference
(`fetch_ref`, as a thread identifier), and the set of fetch threads that have
been spawned and have not yet returned from `_fetch_target` (`alive` models
`Thread.is_alive()`).  Each `with self._lock:` block is one atomic step. -/

namespace ContextManager

structure CMState where
  current_context : Context
  fetch_ref : Option Nat
  alive : List Nat
deriving DecidableEq, Repr

def initState : CMState :=
  { current_context := { app_name := none, primary_context := none, page_context := none },
    fetch_ref := none, alive := [] }

/-- `self._fetch_thread and self._fetch_thread.is_alive()`. -/
def fetchInFlight (s : CMState) : Bool :=
  match s.fetch_ref with
  | some t => s.alive.contains t
  | none => false

/-- Python truthiness of the active-window lookup: `None` info and a missing
or empty `app_name` are all falsy (`not info or not info.get("app_name")`). -/
def windowAppFalsy : Option String → Bool
  | none => true
  | some a => a.isEmpty

/-- `ContextManager.fetch_context_async`: skip when a fetch is in flight;
reset the snapshot; with no determinable window set `app_name` to `"Unknown"`
and start no thread; otherwise record the app name and spawn a fetch thread
with the fresh identifier `newId`. -/
def fetch_context_async (s : CMState) (window_app : Option String) (newId : Nat) : CMState :=
  if fetchInFlight s then s
  else if windowAppFalsy window_app then
    { s with current_context :=
        { app_name := some "Unknown", primary_context := none, page_context := none } }
  else
    { s with
      current_context :=
        { app_name := window_app, primary_context := none, page_context := none },
      fetch_ref := some newId,
      alive := newId :: s.alive }

/-- The `finally` block of `_fetch_target` for thread `t`: the thread ends,
and its result is committed only when `t` is still the current fetch thread
(`threading.current_thread() == self._fetch_thread`); otherwise the result is
discarded. -/
def fetch_complete (s : CMState) (t : Nat) (primary page : Option String) : CMState :=
  let s1 : CMState := { s with alive := s.alive.erase t }
  if s1.fetch_ref = some t then
    { s1 with current_context :=
        { s1.current_context with primary_context := primary, page_context := page } }
  else s1

/-- `ContextManager.cleanup`: drops the thread reference. -/
def cm_cleanup (s : CMState) : CMState := { s with fetch_ref := none }

/-- `ContextManager.wait_for_context`: when no fetch thread is alive the call
returns the snapshot's `primary_context` at once.  The first component records
whether the call blocked on a `join`; `joinCompletes` abstracts whether a
blocking join returns within the timeout. -/
def wait_for_context (s : CMState) (joinCompletes : Bool) : Bool × Option String :=
  if fetchInFlight s then
    if joinCompletes then (true, s.current_context.primary_context)
    else (true, none)
  else (false, s.current_context.primary_context)

/-- Interleaved events on a `ContextManager`. -/
inductive CMEvent where
  | fetchAsync (window_app : Option String) (newId : Nat)
  | complete (t : Nat) (primary page : Option String)
  | doCleanup
deriving Repr

def stepCM (s : CMState) : CMEvent → CMState
  | .fetchAsync w i => fetch_context_async s w i
  | .complete t p pg => fetch_complete s t p pg
  | .doCleanup => cm_cleanup s

def runCM (evs : List CMEvent) : CMState := evs.foldl stepCM initState

end ContextManager

/-! ## AudioRecorder (`src/audio/audio_recorder.py`)

State: the recording flag, the two stop events, the chunk queue, the stored
callback and the audio-detected flag.  `start_recording`'s lock-protected
body, `stop_recording`, one watchdog loop iteration, and the monitor thread's
work after the stop event are the atomic steps. -/

namespace AudioRecorder

structure ARState where
  is_recording : Bool
  stop_event : Bool
  audio_queue : List (List Nat)
  processing_callback : Option Nat
  audio_detected : Bool
  watchdog_stop_event : Bool
deriving DecidableEq, Repr

def initState : ARState :=
  { is_recording := false, stop_event := false, audio_queue := [],
    processing_callback := none, audio_detected := false, watchdog_stop_event := false }

/-- `AudioRecorder.start_recording`: fail fast while already recording;
otherwise clear the stop event, previous buffer, queue and audio-detected
flag, store the callback, start the recording/monitor/watchdog threads, emit
the Recording status, set the flag, and return `True`. -/
def start_recording (s : ARState) (cb : Nat) : Bool × ARState × List String :=
  if s.is_recording then (false, s, [])
  else
    (true,
     { is_recording := true, stop_event := false, audio_queue := [],
       processing_callback := some cb, audio_detected := false,
       watchdog_stop_event := false },
     [StatusMsg.RECORDING])

/-- `AudioRecorder.stop_recording`: a no-op unless recording; otherwise set
the stop event and the watchdog stop event (`_stop_watchdog`). -/
def stop_recording (s : ARState) : ARState :=
  if s.is_recording then { s with stop_event := true, watchdog_stop_event := true }
  else s

/-- `self._watchdog_timeout_sec = 5.0`, in tenths of a second (the loop
sleeps 0.1 s per iteration). -/
def watchdogTimeoutTenths : Nat := 50

/-- `AudioRecorder._watchdog_target` for a session during which no concurrent
event changes the state `s` (no chunk is ever observed, no manual stop): one
recursion step per loop iteration, `elapsed` in tenths of a second.  When the
timeout elapses the watchdog emits the error status and calls
`stop_recording`. -/
def watchdog_run (s : ARState) (log : List String) : Nat → Nat → ARState × List String
  | 0, _ => (s, log)
  | fuel + 1, elapsed =>
    if s.watchdog_stop_event then (s, log)
    else if !s.is_recording then (s, log)
    else if s.audio_detected then (s, log)
    else if watchdogTimeoutTenths < elapsed then
      (stop_recording s, log ++ [StatusMsg.ERROR_RECORDING])
    else watchdog_run s log fuel (elapsed + 1)

/-- `AudioRecorder._monitor_target` after the stop event fires: clear the
recording flag, collect the queued chunks; with no chunks emit the Ready
status and hand `None` to the callback, otherwise seal the concatenated
buffer and hand it over.  Returns (state, statuses, buffer passed to the
callback). -/
def monitor_on_stop (s : ARState) : ARState × List String × Option (List Nat) :=
  let s1 : ARState := { s with is_recording := false, audio_queue := [] }
  if s.audio_queue.isEmpty then (s1, [StatusMsg.READY], none)
  else (s1, [], some s.audio_queue.flatten)

/-- A full capture session in which no audio chunk is ever observed: start,
watchdog loop with the given fuel, then the monitor reacting to the stop
event.  Returns the final state and the whole status-queue traffic. -/
def session_no_audio (fuel : Nat) : ARState × List String :=
  let st := start_recording initState 0
  let wd := watchdog_run st.2.1 [] fuel 0
  let mon := monitor_on_stop wd.1
  (mon.1, (st.2.2 ++ wd.2) ++ mon.2.1)

end AudioRecorder

/-! ## DiscreteApplicationRunner (`src/discrete_application_runner.py`)

The runner composes the three components.  `trigger_interaction` plus the
event loop's handling of the queued START action is modelled as one composed
function; `_process_recorded_audio` is the capture-completion callback. -/

namespace Runner

structure RunnerState where
  cm : ContextManager.CMState
  ar : AudioRecorder.ARState
  cpBusy : Bool
deriving DecidableEq, Repr

/-- `trigger_interaction` fused with the event loop's handling of the queued
START action, as a single step.  The rejection branches are exact (they run
entirely inside `trigger_interaction`, before anything is enqueued); the
accept branch collapses the enqueue/handle gap and is used only for the
rejection-status theorems.  The gap itself is modelled by `QRunnerState`,
`trigger_interaction` and `handle_next` below. -/
def trigger_then_handle (s : RunnerState) (w : Option String) (fid cb : Nat) :
    RunnerState × List String × Bool :=
  if s.cpBusy then (s, [StatusMsg.PROCESSING_BUSY], false)
  else if s.ar.is_recording then (s, [StatusMsg.ALREADY_RECORDING], false)
  else
    let cm1 := ContextManager.fetch_context_async s.cm w fid
    let st := AudioRecorder.start_recording s.ar cb
    ({ s with cm := cm1, ar := st.2.1 }, StatusMsg.HOTKEY_PRESSED :: st.2.2, true)

/-- The runner with its `_action_queue` made explicit: `trigger_interaction`
(hotkey-delivery thread) only enqueues a START action, which the `run()`
thread handles later, possibly after the component states have changed. -/
structure QRunnerState where
  cm : ContextManager.CMState
  ar : AudioRecorder.ARState
  cpBusy : Bool
  action_queue : List Nat
deriving DecidableEq, Repr

/-- `DiscreteApplicationRunner.trigger_interaction`: reject with the busy
status while the processor is processing, with the already-recording status
while capture is active; otherwise enqueue a START action (identified by
`aid`) and emit the hotkey-pressed status.  The trigger itself starts
nothing. -/
def trigger_interaction (s : QRunnerState) (aid : Nat) :
    QRunnerState × List String × Bool :=
  if s.cpBusy then (s, [StatusMsg.PROCESSING_BUSY], false)
  else if s.ar.is_recording then (s, [StatusMsg.ALREADY_RECORDING], false)
  else
    ({ s with action_queue := s.action_queue ++ [aid] },
     [StatusMsg.HOTKEY_PRESSED], true)

/-- One `run()` loop iteration on a queued START action
(`_handle_start_recording`): invoke `fetch_context_async` and attempt
`start_recording` against the component states *at handling time*.  Returns
(new state, statuses, whether capture actually started); on a failed start
the source only logs an error. -/
def handle_next (s : QRunnerState) (w : Option String) :
    QRunnerState × List String × Bool :=
  match s.action_queue with
  | [] => (s, [], false)
  | aid :: rest =>
    let cm1 := ContextManager.fetch_context_async s.cm w aid
    let st := AudioRecorder.start_recording s.ar aid
    ({ cm := cm1, ar := st.2.1, cpBusy := s.cpBusy, action_queue := rest },
     st.2.2, st.1)

/-- The overlapping-press scenario: a second press arrives after a first
press was accepted but before the `run()` thread has handled the first START
action, so capture is not yet active and the second press also passes both
checks. -/
def overlap_press1 : QRunnerState × List String × Bool :=
  trigger_interaction
    { cm := ContextManager.initState, ar := AudioRecorder.initState,
      cpBusy := false, action_queue := [] } 1

def overlap_press2 : QRunnerState × List String × Bool :=
  trigger_interaction overlap_press1.1 2

def overlap_handle1 : QRunnerState × List String × Bool :=
  handle_next overlap_press2.1 (some "Safari")

def overlap_handle2 : QRunnerState × List String × Bool :=
  handle_next overlap_handle1.1 (some "Safari")

/-- Effects of `_process_recorded_audio`: the statuses it emits and the calls
it makes to `CommandProcessor.process_command` (the dispatch towards the
processing engine). -/
structure ProcessOutcome where
  statuses : List String
  engine_calls : List (Context × String × CommandMode)
deriving DecidableEq, Repr

/-- The type-agnostic empty check at the top of `_process_recorded_audio`:
`None` or a zero-length buffer. -/
def buffer_is_empty : Option (List Nat) → Bool
  | none => true
  | some b => b.isEmpty

/-- `DiscreteApplicationRunner._process_recorded_audio`: abort silently on an
absent/empty buffer; emit Transcribing, then abort with an error status when
the ASR raises or the transcript is empty/whitespace-only (the code raises
`ValueError("Transcription empty")` into its own handler); otherwise emit the
Transcribed status and dispatch the command with the current context. -/
def process_recorded_audio (audio_buffer : Option (List Nat))
    (asr : Except String String) (ctx : Context) (mode : CommandMode) : ProcessOutcome :=
  if buffer_is_empty audio_buffer then { statuses := [], engine_calls := [] }
  else
    match asr with
    | .error e =>
        { statuses := [StatusMsg.TRANSCRIBING, "Error: " ++ e], engine_calls := [] }
    | .ok t =>
        if blankText t then
          { statuses := [StatusMsg.TRANSCRIBING, "Error: Transcription empty"],
            engine_calls := [] }
        else
          { statuses := [StatusMsg.TRANSCRIBING, "Transcribed: '" ++ t.take 40 ++ "'"],
            engine_calls := [(ctx, t, mode)] }

end Runner

/-! ## KeyboardManager (`src/keyboard/keyboard_manager.py`)

Hotkey configuration, reconfiguration and matching.  `pressed_keys` is a
Python `set` of key symbols, modelled as `Finset String`.  The Python
configuration `dict[CommandMode, str]` has at most the two `CommandMode`
keys, modelled as a record of two optional entries. -/

namespace KeyboardManager

/-- A hotkey configuration dictionary: at most one string per mode. -/
structure HotkeyConfig where
  dictation : Option String
  action : Option String
deriving DecidableEq, Repr

/-- Python `str.split(sep)` for a one-character separator, structurally on
the character list: splitting the empty string yields `[""]`, and every
separator occurrence starts a new group. -/
def splitOnChar (sep : Char) : List Char → List (List Char)
  | [] => [[]]
  | c :: cs =>
    match splitOnChar sep cs with
    | [] => [[]]
    | g :: gs => if c = sep then [] :: g :: gs else (c :: g) :: gs

/-- `set(hotkey_str.split("+"))`. -/
def splitHotkey (s : String) : Finset String :=
  ((splitOnChar '+' s.toList).map fun l => (⟨l⟩ : String)).toFinset

/-- The derived `_target_hotkeys` dictionary: mode → set of key symbols. -/
structure Targets where
  dictation : Option (Finset String)
  action : Option (Finset String)
deriving DecidableEq

/-- The loop body of `set_hotkeys` over `hotkeys.items()`. -/
def targetsOf (h : HotkeyConfig) : Targets :=
  { dictation := h.dictation.map splitHotkey, action := h.action.map splitHotkey }

structure KMState where
  hotkey_strs : Option HotkeyConfig
  target_hotkeys : Option Targets
  is_hotkey_paused : Bool
  pressed_keys : Finset String
  was_hotkey_pressed : Bool
deriving DecidableEq

/-- `KeyboardManager.set_hotkeys`: return `True` at once when the new
configuration equals the stored one; otherwise store the strings and the
derived symbol sets and return `True`. -/
def set_hotkeys (s : KMState) (h : HotkeyConfig) : Bool × KMState :=
  if s.hotkey_strs = some h then (true, s)
  else (true, { s with hotkey_strs := some h, target_hotkeys := some (targetsOf h) })

/-- `KeyboardManager.get_pressed_keys`: the currently pressed key symbols in
sorted order, truncated to the first three. -/
def get_pressed_keys (pressed : Finset String) : List String :=
  (pressed.sort (· ≤ ·)).take 3

/-- `_target_hotkeys.items()` in iteration order. -/
def targetsList (tg : Targets) : List (CommandMode × Finset String) :=
  (match tg.dictation with
   | some k => [(CommandMode.DICTATION, k)]
   | none => []) ++
  (match tg.action with
   | some k => [(CommandMode.ACTION, k)]
   | none => [])

/-- `KeyboardManager.check_hotkey_match`: `None` when unconfigured or paused;
otherwise compare `set(self.get_pressed_keys())` against each configured
combination and return the first matching mode. -/
def check_hotkey_match (targets : Option Targets) (paused : Bool)
    (pressed : Finset String) : Option CommandMode :=
  match targets with
  | none => none
  | some tg =>
    if (targetsList tg).isEmpty || paused then none
    else
      (targetsList tg).findSome? fun mk =>
        if (get_pressed_keys pressed).toFinset = mk.2 then some mk.1 else none

end KeyboardManager

/-! ## Theorems -/

open CommandProcessor in
/-- One step preserves the processor invariant. -/
theorem stepCP_inv (s : CPState) (e : CPEvent) (h : cpInv s) : cpInv (stepCP s e) := by
  obtain ⟨h1, h2⟩ := h
  cases e with
  | submit ctx cmd audio mode =>
      simp only [stepCP, process_command]
      split_ifs with hb hp
      · exact ⟨h1, h2⟩
      · exact ⟨h1, h2⟩
      · have hw : s.runningWorkers = 0 := by
          rw [Bool.eq_false_iff.mpr hp] at h1
          have h1x : s.runningWorkers ≠ 1 := by simpa using h1.symm
          omega
        refine ⟨?_, ?_⟩ <;> simp [hw]
  | finish success err =>
      refine ⟨?_, ?_⟩ <;> simp [worker_finish, stepCP] <;> omega

open CommandProcessor in
/-- Every reachable processor state satisfies the invariant. -/
theorem runCP_inv (evs : List CPEvent) : cpInv (runCP evs) := by
  have hgen : ∀ s, cpInv s → cpInv (evs.foldl stepCP s) := by
    induction evs with
    | nil => intro s hs; exact hs
    | cons e tl ih => intro s hs; exact ih _ (stepCP_inv s e hs)
  exact hgen initState ⟨rfl, Nat.zero_le 1⟩

open CommandProcessor in
/-- C1 counterexample: the claim states that a `process_command` call made
while no prior worker is active "marks the processor busy, spawns one worker,
and returns True immediately".  On an idle processor a call with an empty
text command and no audio returns `False`, spawns nothing, and emits the
Ready status, so the claim as stated is false. -/
theorem C1_blank_command_counterexample :
    initState.is_processing = false ∧
    (process_command initState
        { app_name := none, primary_context := none, page_context := none }
        "" none CommandMode.DICTATION).accepted = false ∧
    (process_command initState
        { app_name := none, primary_context := none, page_context := none }
        "" none CommandMode.DICTATION).state = initState ∧
    (process_command initState
        { app_name := none, primary_context := none, page_context := none }
        "" none CommandMode.DICTATION).emit.immediate = [StatusMsg.READY] := by
  refine ⟨rfl, ?_, ?_, ?_⟩ <;> decide

open CommandProcessor in
/-- C1 (amended): across every interleaving of `process_command` calls and
worker completions, at most one worker executes the processing engine at any
instant; a non-blank call made while a prior worker has not finished returns
`False`, emits the Busy status and leaves the state (hence the active worker)
untouched; a non-blank call on an idle processor marks it busy, spawns one
worker and returns `True`; a blank call (empty/whitespace text and no audio
payload) returns `False` with exactly a Ready status and spawns no worker,
regardless of whether the processor is busy (the blank check precedes the
busy check); and the busy flag is cleared only by a worker completion (the
engine call returning or raising). -/
theorem C1_single_flight_amended (evs : List CPEvent) :
    (runCP evs).runningWorkers ≤ 1 ∧
    (∀ ctx cmd audio mode, (blankText cmd && pyFalsyBytes audio) = false →
      ((runCP evs).is_processing = true →
        (process_command (runCP evs) ctx cmd audio mode).accepted = false ∧
        (process_command (runCP evs) ctx cmd audio mode).state = runCP evs ∧
        (process_command (runCP evs) ctx cmd audio mode).emit.immediate = [StatusMsg.BUSY]) ∧
      ((runCP evs).is_processing = false →
        (process_command (runCP evs) ctx cmd audio mode).accepted = true ∧
        (process_command (runCP evs) ctx cmd audio mode).state.is_processing = true ∧
        (process_command (runCP evs) ctx cmd audio mode).state.runningWorkers =
          (runCP evs).runningWorkers + 1)) ∧
    (∀ ctx cmd audio mode, (blankText cmd && pyFalsyBytes audio) = true →
      process_command (runCP evs) ctx cmd audio mode =
        { accepted := false, state := runCP evs,
          emit := { immediate := [StatusMsg.READY], scheduled := [] } }) ∧
    (∀ (s : CPState) (e : CPEvent), s.is_processing = true →
      (stepCP s e).is_processing = false →
      ∃ success err, e = CPEvent.finish success err) := by
  refine ⟨(runCP_inv evs).2, ?_, ?_, ?_⟩
  · intro ctx cmd audio mode hblank
    constructor
    · intro hbusy
      refine ⟨?_, ?_, ?_⟩ <;> simp [process_command, hblank, hbusy]
    · intro hidle
      refine ⟨?_, ?_, ?_⟩ <;> simp [process_command, hblank, hidle]
  · intro ctx cmd audio mode hblank
    simp [process_command, hblank]
  · intro s e hbusy hcleared
    cases e with
    | submit ctx cmd audio mode =>
        exfalso
        simp only [stepCP, process_command] at hcleared
        split_ifs at hcleared <;> simp_all
    | finish success err => exact ⟨success, err, rfl⟩

open CommandProcessor in
/-- C1 witness: concrete run of the amended theorem.  After one accepted
submission the processor is busy; a second non-blank submission is rejected,
and a blank submission on that same busy processor is rejected with exactly
the Ready status. -/
theorem C1_single_flight_witness :
    (runCP [CPEvent.submit { app_name := none, primary_context := none, page_context := none }
        "hi" none CommandMode.ACTION]).runningWorkers ≤ 1 ∧
    (process_command
        (runCP [CPEvent.submit { app_name := none, primary_context := none, page_context := none }
            "hi" none CommandMode.ACTION])
        { app_name := none, primary_context := none, page_context := none }
        "go" none CommandMode.ACTION).accepted = false ∧
    process_command
        (runCP [CPEvent.submit { app_name := none, primary_context := none, page_context := none }
            "hi" none CommandMode.ACTION])
        { app_name := none, primary_context := none, page_context := none }
        "" none CommandMode.ACTION =
      { accepted := false,
        state := runCP [CPEvent.submit
          { app_name := none, primary_context := none, page_context := none }
          "hi" none CommandMode.ACTION],
        emit := { immediate := [StatusMsg.READY], scheduled := [] } } := by
  have h := C1_single_flight_amended
    [CPEvent.submit { app_name := none, primary_context := none, page_context := none }
        "hi" none CommandMode.ACTION]
  refine ⟨h.1, ?_, ?_⟩
  · exact ((h.2.1 { app_name := none, primary_context := none, page_context := none }
      "go" none CommandMode.ACTION (by decide)).1 (by decide)).1
  · exact h.2.2.1 { app_name := none, primary_context := none, page_context := none }
      "" none CommandMode.ACTION (by decide)

open CommandProcessor in
/-- C7 counterexample: the claim states that every rejected action's status
event "is followed after a fixed delay (1.5 seconds) by a Ready status".
A submission rejected while a worker is active emits the Busy status and
schedules nothing: no delayed Ready is produced by the rejected action. -/
theorem C7_rejection_counterexample :
    (runCP [CPEvent.submit { app_name := none, primary_context := none, page_context := none }
        "hi" none CommandMode.ACTION]).is_processing = true ∧
    (process_command
        (runCP [CPEvent.submit { app_name := none, primary_context := none, page_context := none }
            "hi" none CommandMode.ACTION])
        { app_name := none, primary_context := none, page_context := none }
        "hello" none CommandMode.ACTION).accepted = false ∧
    (process_command
        (runCP [CPEvent.submit { app_name := none, primary_context := none, page_context := none }
            "hi" none CommandMode.ACTION])
        { app_name := none, primary_context := none, page_context := none }
        "hello" none CommandMode.ACTION).emit.immediate = [StatusMsg.BUSY] ∧
    (process_command
        (runCP [CPEvent.submit { app_name := none, primary_context := none, page_context := none }
            "hi" none CommandMode.ACTION])
        { app_name := none, primary_context := none, page_context := none }
        "hello" none CommandMode.ACTION).emit.scheduled = [] := by
  refine ⟨?_, ?_, ?_, ?_⟩ <;> decide

open CommandProcessor Runner in
/-- C7 (amended): every finishing worker emits exactly one immediate terminal
status and schedules exactly one Ready status 1.5 s (1500 ms) later; a
rejected `process_command` submission emits exactly one immediate status and
schedules nothing; a hotkey trigger rejected while the processor is busy
emits exactly the busy status and starts no action — the later Ready revert
for such a rejection comes from the in-flight worker's own completion. -/
theorem C7_terminal_status_amended (s : CPState) (success : Bool) (err : String)
    (ctx : Context) (cmd : String) (audio : Option (List Nat)) (mode : CommandMode)
    (rs : RunnerState) (w : Option String) (fid cb : Nat) :
    ((worker_finish s success err).2.immediate.length = 1 ∧
     (worker_finish s success err).2.scheduled = [(1500, StatusMsg.READY)]) ∧
    ((process_command s ctx cmd audio mode).accepted = false →
      (process_command s ctx cmd audio mode).emit.immediate.length = 1 ∧
      (process_command s ctx cmd audio mode).emit.scheduled = []) ∧
    (rs.cpBusy = true →
      (trigger_then_handle rs w fid cb).2.1 = [StatusMsg.PROCESSING_BUSY] ∧
      (trigger_then_handle rs w fid cb).2.2 = false ∧
      (trigger_then_handle rs w fid cb).1 = rs) := by
  refine ⟨⟨rfl, rfl⟩, ?_, ?_⟩
  · intro hrej
    simp only [process_command] at hrej ⊢
    split_ifs at hrej ⊢ <;> simp_all
  · intro hbusy
    refine ⟨?_, ?_, ?_⟩ <;> simp [trigger_then_handle, hbusy]

open CommandProcessor Runner in
/-- C7 witness: concrete rejected submission and rejected trigger. -/
theorem C7_terminal_status_witness :
    ((worker_finish { is_processing := true, runningWorkers := 1 } true "").2.scheduled =
      [(1500, StatusMsg.READY)]) ∧
    (process_command { is_processing := true, runningWorkers := 1 }
        { app_name := none, primary_context := none, page_context := none }
        "go" none CommandMode.ACTION).emit.scheduled = [] ∧
    (trigger_then_handle
        { cm := ContextManager.initState, ar := AudioRecorder.initState, cpBusy := true }
        none 0 0).2.1 = [StatusMsg.PROCESSING_BUSY] := by
  have h := C7_terminal_status_amended { is_processing := true, runningWorkers := 1 } true ""
    { app_name := none, primary_context := none, page_context := none }
    "go" none CommandMode.ACTION
    { cm := ContextManager.initState, ar := AudioRecorder.initState, cpBusy := true }
    none 0 0
  exact ⟨h.1.2, (h.2.1 (by decide)).2, (h.2.2 rfl).1⟩

open ContextManager in
/-- C2: across every interleaving of context-manager events, a completing
fetch that is no longer the current fetch thread leaves the snapshot
untouched; a completing fetch that is still current commits exactly its
result (and only the context fields, not the app name); and a
`fetch_context_async` call made while an earlier fetch is still in flight is
a no-op, so the earlier fetch stays current and only its result is ever
committed to the snapshot readable via `get_current_context`. -/
theorem C2_staleness (evs : List ContextManager.CMEvent) :
    (∀ (t : Nat) (p pg : Option String), (runCM evs).fetch_ref ≠ some t →
      (fetch_complete (runCM evs) t p pg).current_context = (runCM evs).current_context) ∧
    (∀ (t : Nat) (p pg : Option String), (runCM evs).fetch_ref = some t →
      (fetch_complete (runCM evs) t p pg).current_context.primary_context = p ∧
      (fetch_complete (runCM evs) t p pg).current_context.page_context = pg ∧
      (fetch_complete (runCM evs) t p pg).current_context.app_name =
        (runCM evs).current_context.app_name) ∧
    (∀ (w : Option String) (i : Nat), fetchInFlight (runCM evs) = true →
      fetch_context_async (runCM evs) w i = runCM evs) := by
  refine ⟨?_, ?_, ?_⟩
  · intro t p pg hstale
    simp [fetch_complete, hstale]
  · intro t p pg hcur
    refine ⟨?_, ?_, ?_⟩ <;> simp [fetch_complete, hcur]
  · intro w i hflight
    simp [fetch_context_async, hflight]

open ContextManager in
/-- C2 witness: one fetch in flight (thread 1); a stale completion (thread 2)
changes nothing, thread 1's completion commits, a second async call is a
no-op. -/
theorem C2_staleness_witness :
    (fetch_complete (runCM [CMEvent.fetchAsync (some "Safari") 1]) 2 (some "x") none).current_context =
      (runCM [CMEvent.fetchAsync (some "Safari") 1]).current_context ∧
    (fetch_complete (runCM [CMEvent.fetchAsync (some "Safari") 1]) 1 (some "x") none).current_context.primary_context =
      some "x" ∧
    fetch_context_async (runCM [CMEvent.fetchAsync (some "Safari") 1]) (some "Notes") 2 =
      runCM [CMEvent.fetchAsync (some "Safari") 1] := by
  have h := C2_staleness [CMEvent.fetchAsync (some "Safari") 1]
  exact ⟨h.1 2 (some "x") none (by decide),
         (h.2.1 1 (some "x") none (by decide)).1,
         h.2.2 (some "Notes") 2 (by decide)⟩

open ContextManager in
/-- C10: with no fetch in flight, a `fetch_context_async` call that cannot
determine the active window resets the snapshot to `app_name = "Unknown"`
with both context fields absent, starts no background fetch thread, and a
subsequent `wait_for_context` does not block and returns no primary
context. -/
theorem C10_unknown_window (s : ContextManager.CMState) (w : Option String) (i : Nat)
    (jc : Bool) (h1 : fetchInFlight s = false) (h2 : windowAppFalsy w = true) :
    (fetch_context_async s w i).current_context =
      { app_name := some "Unknown", primary_context := none, page_context := none } ∧
    (fetch_context_async s w i).fetch_ref = s.fetch_ref ∧
    (fetch_context_async s w i).alive = s.alive ∧
    wait_for_context (fetch_context_async s w i) jc = (false, none) := by
  have hstate : fetch_context_async s w i =
      { s with current_context :=
          { app_name := some "Unknown", primary_context := none, page_context := none } } := by
    simp [fetch_context_async, h1, h2]
  refine ⟨by rw [hstate], by rw [hstate], by rw [hstate], ?_⟩
  rw [hstate]
  have hflight : fetchInFlight
      { s with current_context :=
          { app_name := some "Unknown", primary_context := none, page_context := none } } = false := by
    simp only [fetchInFlight] at h1 ⊢
    exact h1
  simp [wait_for_context, hflight]

open ContextManager in
/-- C10 witness: a fresh manager, no window info. -/
theorem C10_unknown_window_witness :
    fetchInFlight ContextManager.initState = false ∧
    windowAppFalsy none = true ∧
    (fetch_context_async ContextManager.initState none 0).current_context =
      { app_name := some "Unknown", primary_context := none, page_context := none } ∧
    wait_for_context (fetch_context_async ContextManager.initState none 0) false = (false, none) := by
  have h := C10_unknown_window ContextManager.initState none 0 false (by decide) (by decide)
  exact ⟨by decide, by decide, h.1, h.2.2.2⟩

open AudioRecorder in
/-- With the watchdog running against a recording session in which no audio
is ever detected and no stop is requested, the loop reaches the timeout and
fires: it emits the error status once and calls `stop_recording`. -/
theorem watchdog_run_fires (s : AudioRecorder.ARState) (log : List String)
    (hwd : s.watchdog_stop_event = false) (hr : s.is_recording = true)
    (ha : s.audio_detected = false) :
    ∀ (fuel elapsed : Nat), elapsed ≤ watchdogTimeoutTenths + 1 →
      watchdogTimeoutTenths + 2 - elapsed ≤ fuel →
      watchdog_run s log fuel elapsed = (stop_recording s, log ++ [StatusMsg.ERROR_RECORDING]) := by
  intro fuel
  induction fuel with
  | zero => intro e he hf; simp [watchdogTimeoutTenths] at he hf; omega
  | succ f ih =>
    intro e he hf
    by_cases hel : watchdogTimeoutTenths < e
    · simp [watchdog_run, hwd, hr, ha, hel]
    · rw [show watchdog_run s log (f + 1) e = watchdog_run s log f (e + 1) by
        simp [watchdog_run, hwd, hr, ha, hel]]
      exact ih (e + 1) (by simp [watchdogTimeoutTenths] at hel ⊢; omega) (by omega)

open AudioRecorder in
/-- The whole no-audio session evaluates to a stopped recorder and the status
trace Recording, error, Ready, provided the watchdog runs at least 52 loop
iterations (5.1 elapsed seconds at 0.1 s per iteration). -/
theorem session_no_audio_eq (fuel : Nat) (h : 52 ≤ fuel) :
    session_no_audio fuel =
      ({ is_recording := false, stop_event := true, audio_queue := [],
         processing_callback := some 0, audio_detected := false,
         watchdog_stop_event := true },
       [StatusMsg.RECORDING, StatusMsg.ERROR_RECORDING, StatusMsg.READY]) := by
  have hw := watchdog_run_fires
    { is_recording := true, stop_event := false, audio_queue := [],
      processing_callback := some 0, audio_detected := false, watchdog_stop_event := false }
    [] rfl rfl rfl fuel 0 (by simp [watchdogTimeoutTenths])
    (by simp [watchdogTimeoutTenths]; omega)
  simp only [session_no_audio, start_recording, initState]
  norm_num
  rw [hw]
  simp [stop_recording, monitor_on_stop]

open AudioRecorder in
/-- C3: in a capture session during which no audio chunk is ever observed,
once the 5.0 s watchdog timeout elapses the session is forcibly stopped (the
stop event is set and the recording flag becomes false) and the error status
is emitted exactly once on the status queue. -/
theorem C3_watchdog_fires (fuel : Nat) (h : 52 ≤ fuel) :
    (session_no_audio fuel).1.is_recording = false ∧
    (session_no_audio fuel).1.stop_event = true ∧
    (session_no_audio fuel).2.count StatusMsg.ERROR_RECORDING = 1 := by
  rw [session_no_audio_eq fuel h]
  refine ⟨rfl, rfl, by decide⟩

open AudioRecorder in
/-- C3 witness: the session with exactly 52 watchdog iterations. -/
theorem C3_watchdog_fires_witness :
    52 ≤ 52 ∧
    ((session_no_audio 52).1.is_recording = false ∧
     (session_no_audio 52).1.stop_event = true ∧
     (session_no_audio 52).2.count StatusMsg.ERROR_RECORDING = 1) :=
  ⟨by decide, C3_watchdog_fires 52 (by decide)⟩

open AudioRecorder in
/-- C6: a `start_recording` call made while a recording is already in
progress returns `False`, emits no status, and changes no state: the
session's queued chunks, stop event, processing callback, audio-detected
flag and recording flag are all left as they were. -/
theorem C6_start_recording_busy (s : AudioRecorder.ARState) (cb : Nat)
    (h : s.is_recording = true) :
    start_recording s cb = (false, s, []) := by
  simp [start_recording, h]

open AudioRecorder in
/-- C6 witness: the state right after a successful start rejects a second
start untouched. -/
theorem C6_start_recording_busy_witness :
    ((start_recording AudioRecorder.initState 7).2.1).is_recording = true ∧
    start_recording ((start_recording AudioRecorder.initState 7).2.1) 9 =
      (false, (start_recording AudioRecorder.initState 7).2.1, []) :=
  ⟨by decide, C6_start_recording_busy ((start_recording AudioRecorder.initState 7).2.1) 9 (by decide)⟩

open Runner in
/-- C4: an absent or empty sealed audio buffer, or an ASR result whose
transcript is empty or whitespace-only, makes `_process_recorded_audio`
return without ever dispatching to the command-processing engine; its only
observable effects are at most two status updates. -/
theorem C4_empty_short_circuit (audio_buffer : Option (List Nat))
    (asr : Except String String) (ctx : Context) (mode : CommandMode)
    (h : buffer_is_empty audio_buffer = true ∨ ∃ t, asr = Except.ok t ∧ blankText t = true) :
    (process_recorded_audio audio_buffer asr ctx mode).engine_calls = [] ∧
    (process_recorded_audio audio_buffer asr ctx mode).statuses.length ≤ 2 := by
  rcases h with hbuf | ⟨t, hok, hblank⟩
  · constructor <;> simp [process_recorded_audio, hbuf]
  · subst hok
    by_cases hbuf : buffer_is_empty audio_buffer
    · constructor <;> simp [process_recorded_audio, hbuf]
    · constructor <;> simp [process_recorded_audio, hbuf, hblank]

open Runner in
/-- C4 witness: an absent buffer and a whitespace-only transcript. -/
theorem C4_empty_short_circuit_witness :
    (process_recorded_audio none (Except.ok "hello")
        { app_name := none, primary_context := none, page_context := none }
        CommandMode.DICTATION).engine_calls = [] ∧
    (process_recorded_audio (some [1, 2]) (Except.ok "  ")
        { app_name := none, primary_context := none, page_context := none }
        CommandMode.DICTATION).engine_calls = [] :=
  ⟨(C4_empty_short_circuit none (Except.ok "hello")
      { app_name := none, primary_context := none, page_context := none }
      CommandMode.DICTATION (Or.inl (by decide))).1,
   (C4_empty_short_circuit (some [1, 2]) (Except.ok "  ")
      { app_name := none, primary_context := none, page_context := none }
      CommandMode.DICTATION (Or.inr ⟨"  ", rfl, by decide⟩)).1⟩

open Runner in
/-- C5 counterexample: the claim states that a press not rejected by the busy
checks "causes context fetch and audio capture to start for that action".
Two presses can both pass the checks before the `run()` thread handles either
queued START action: the second press is accepted (hotkey-pressed status, not
a busy rejection), yet when its action is handled the first action's capture
is already active, `start_recording` returns `False`, the recorder state is
untouched and no Recording status is emitted — capture never starts for the
second action. -/
theorem C5_queued_press_counterexample :
    overlap_press1.2.2 = true ∧
    overlap_press2.2.1 = [StatusMsg.HOTKEY_PRESSED] ∧
    overlap_press2.2.2 = true ∧
    overlap_handle1.2.2 = true ∧
    overlap_handle2.2.2 = false ∧
    overlap_handle2.1.ar = overlap_handle1.1.ar ∧
    overlap_handle2.2.1 = [] := by
  refine ⟨?_, ?_, ?_, ?_, ?_, ?_, ?_⟩ <;> decide

open Runner in
/-- C5 (amended): a hotkey press delivered while the command processor is
processing is rejected with the "processing busy" status; one delivered
while capture is active is rejected with the "already recording" status; in
both cases nothing is enqueued and the state is unchanged, so neither a
context fetch nor a recording is started.  Otherwise the trigger emits only
the "hotkey pressed" status and enqueues a START action; when the `run()`
thread handles it, the context fetch is invoked and capture starts exactly
when no capture is active at handling time — if an earlier action's capture
is still active, `start_recording` fails and the action starts no
recording. -/
theorem C5_trigger_queue_amended (s : Runner.QRunnerState) (aid : Nat) (w : Option String) :
    (s.cpBusy = true →
      trigger_interaction s aid = (s, [StatusMsg.PROCESSING_BUSY], false)) ∧
    (s.cpBusy = false → s.ar.is_recording = true →
      trigger_interaction s aid = (s, [StatusMsg.ALREADY_RECORDING], false)) ∧
    (s.cpBusy = false → s.ar.is_recording = false →
      trigger_interaction s aid =
        ({ s with action_queue := s.action_queue ++ [aid] },
         [StatusMsg.HOTKEY_PRESSED], true)) ∧
    (∀ rest, s.action_queue = aid :: rest →
      (handle_next s w).1.cm = ContextManager.fetch_context_async s.cm w aid ∧
      (s.ar.is_recording = false →
        (handle_next s w).2.2 = true ∧
        (handle_next s w).1.ar.is_recording = true ∧
        (handle_next s w).2.1 = [StatusMsg.RECORDING]) ∧
      (s.ar.is_recording = true →
        (handle_next s w).2.2 = false ∧
        (handle_next s w).1.ar = s.ar ∧
        (handle_next s w).2.1 = [])) := by
  refine ⟨?_, ?_, ?_, ?_⟩
  · intro hbusy; simp [trigger_interaction, hbusy]
  · intro hidle hrec; simp [trigger_interaction, hidle, hrec]
  · intro hidle hrec; simp [trigger_interaction, hidle, hrec]
  · intro rest hq
    refine ⟨?_, ?_, ?_⟩
    · simp [handle_next, hq]
    · intro hrec
      refine ⟨?_, ?_, ?_⟩ <;> simp [handle_next, hq, AudioRecorder.start_recording, hrec]
    · intro hrec
      refine ⟨?_, ?_, ?_⟩ <;> simp [handle_next, hq, AudioRecorder.start_recording, hrec]

open Runner in
/-- C5 witness: a busy processor rejects a press; an idle runner enqueues it
and the handled action starts capture; an action handled while a capture is
active starts none. -/
theorem C5_trigger_queue_witness :
    trigger_interaction
        { cm := ContextManager.initState, ar := AudioRecorder.initState,
          cpBusy := true, action_queue := [] } 1 =
      ({ cm := ContextManager.initState, ar := AudioRecorder.initState,
         cpBusy := true, action_queue := [] }, [StatusMsg.PROCESSING_BUSY], false) ∧
    trigger_interaction
        { cm := ContextManager.initState, ar := AudioRecorder.initState,
          cpBusy := false, action_queue := [] } 1 =
      ({ cm := ContextManager.initState, ar := AudioRecorder.initState,
         cpBusy := false, action_queue := [1] }, [StatusMsg.HOTKEY_PRESSED], true) ∧
    (handle_next
        { cm := ContextManager.initState, ar := AudioRecorder.initState,
          cpBusy := false, action_queue := [1] } (some "Safari")).2.2 = true ∧
    (handle_next
        { cm := ContextManager.initState, ar := AudioRecorder.initState,
          cpBusy := false, action_queue := [1] } (some "Safari")).1.ar.is_recording = true := by
  have h1 := C5_trigger_queue_amended
    { cm := ContextManager.initState, ar := AudioRecorder.initState,
      cpBusy := true, action_queue := [] } 1 (some "Safari")
  have h2 := C5_trigger_queue_amended
    { cm := ContextManager.initState, ar := AudioRecorder.initState,
      cpBusy := false, action_queue := [] } 1 (some "Safari")
  have h3 := C5_trigger_queue_amended
    { cm := ContextManager.initState, ar := AudioRecorder.initState,
      cpBusy := false, action_queue := [1] } 1 (some "Safari")
  refine ⟨h1.1 rfl, ?_, ?_, ?_⟩
  · exact h2.2.2.1 rfl rfl
  · exact ((h3.2.2.2 [] rfl).2.1 rfl).1
  · exact ((h3.2.2.2 [] rfl).2.1 rfl).2.1

open KeyboardManager in
/-- The compared key set is built from at most three symbols. -/
theorem current_card_le (pressed : Finset String) :
    (get_pressed_keys pressed).toFinset.card ≤ 3 := by
  calc (get_pressed_keys pressed).toFinset.card
      ≤ (get_pressed_keys pressed).length := List.toFinset_card_le _
    _ ≤ 3 := by rw [get_pressed_keys]; exact List.length_take_le 3 _

/-- A successful `findSome?` over the matching predicate names a list entry
equal to the compared key set. -/
theorem findSome_match_mem {α : Type} (l : List (α × Finset String)) (c : Finset String)
    (m : α) (h : (l.findSome? fun mk => if c = mk.2 then some mk.1 else none) = some m) :
    ∃ k, (m, k) ∈ l ∧ c = k := by
  induction l with
  | nil => simp [List.findSome?] at h
  | cons x xs ih =>
    rw [List.findSome?_cons] at h
    by_cases hc : c = x.2
    · simp only [hc, if_pos rfl] at h
      obtain rfl : x.1 = m := by injection h
      exact ⟨x.2, by simp, hc⟩
    · simp only [if_neg hc] at h
      obtain ⟨k, hk1, hk2⟩ := ih h
      exact ⟨k, List.mem_cons_of_mem _ hk1, hk2⟩

open KeyboardManager in
/-- Each mode has at most one configured combination. -/
theorem targetsList_unique (tg : KeyboardManager.Targets) (m : CommandMode)
    (k k2 : Finset String) (h1 : (m, k) ∈ targetsList tg) (h2 : (m, k2) ∈ targetsList tg) :
    k = k2 := by
  rcases tg with ⟨d, a⟩
  rcases d with _ | k1 <;> rcases a with _ | ka <;>
    cases m <;> simp_all [targetsList]

open KeyboardManager in
/-- A successful hotkey match names a configured combination equal to the
(≤ 3 element) compared key set. -/
theorem check_match_some (targets : Option KeyboardManager.Targets) (paused : Bool)
    (pressed : Finset String) (m : CommandMode)
    (h : check_hotkey_match targets paused pressed = some m) :
    ∃ tg, targets = some tg ∧ ∃ k, (m, k) ∈ targetsList tg ∧
      (get_pressed_keys pressed).toFinset = k := by
  rcases targets with _ | tg
  · simp [check_hotkey_match] at h
  · refine ⟨tg, rfl, ?_⟩
    simp only [check_hotkey_match] at h
    split_ifs at h
    obtain ⟨k, hk1, hk2⟩ := findSome_match_mem (targetsList tg) _ m h
    exact ⟨k, hk1, hk2⟩

open KeyboardManager in
/-- C8: `set_hotkeys` is idempotent.  With the new configuration equal to the
stored one it returns `True` and leaves the manager untouched, and two
consecutive calls with the same configuration leave the same state (stored
strings and derived target key-symbol sets) as a single call. -/
theorem C8_set_hotkeys_idempotent (s : KeyboardManager.KMState) (h : KeyboardManager.HotkeyConfig) :
    (s.hotkey_strs = some h → set_hotkeys s h = (true, s)) ∧
    set_hotkeys (set_hotkeys s h).2 h = (true, (set_hotkeys s h).2) ∧
    (set_hotkeys s h).1 = true := by
  refine ⟨?_, ?_, ?_⟩
  · intro hh; simp [set_hotkeys, hh]
  · by_cases hh : s.hotkey_strs = some h
    · simp [set_hotkeys, hh]
    · simp [set_hotkeys, hh]
  · by_cases hh : s.hotkey_strs = some h <;> simp [set_hotkeys, hh]

open KeyboardManager in
/-- C8 witness: a manager already holding the configuration, and a fresh one
reconfigured twice. -/
theorem C8_set_hotkeys_idempotent_witness :
    set_hotkeys
        { hotkey_strs := some { dictation := some "fn", action := none },
          target_hotkeys := some (targetsOf { dictation := some "fn", action := none }),
          is_hotkey_paused := false, pressed_keys := ∅, was_hotkey_pressed := false }
        { dictation := some "fn", action := none } =
      (true,
       { hotkey_strs := some { dictation := some "fn", action := none },
         target_hotkeys := some (targetsOf { dictation := some "fn", action := none }),
         is_hotkey_paused := false, pressed_keys := ∅, was_hotkey_pressed := false }) :=
  (C8_set_hotkeys_idempotent
    { hotkey_strs := some { dictation := some "fn", action := none },
      target_hotkeys := some (targetsOf { dictation := some "fn", action := none }),
      is_hotkey_paused := false, pressed_keys := ∅, was_hotkey_pressed := false }
    { dictation := some "fn", action := none }).1 rfl

open KeyboardManager in
/-- C9: hotkey matching compares only the set built from the first three
currently-held key symbols in sorted order, so a successful match names a
configured combination of at most three symbols, a configured combination of
four or more keys can never be the returned mode, and the result depends
only on the set of held keys, not on the order in which they were pressed. -/
theorem C9_hotkey_match_three_keys :
    (∀ (targets : Option KeyboardManager.Targets) (paused : Bool) (pressed : Finset String)
        (m : CommandMode), check_hotkey_match targets paused pressed = some m →
      ∃ tg k, targets = some tg ∧ (m, k) ∈ targetsList tg ∧ k.card ≤ 3) ∧
    (∀ (tg : KeyboardManager.Targets) (paused : Bool) (pressed : Finset String)
        (m : CommandMode) (k : Finset String),
      (m, k) ∈ targetsList tg → 4 ≤ k.card →
      check_hotkey_match (some tg) paused pressed ≠ some m) ∧
    (∀ (targets : Option KeyboardManager.Targets) (paused : Bool) (l l2 : List String),
      l.Perm l2 →
      check_hotkey_match targets paused l.toFinset =
        check_hotkey_match targets paused l2.toFinset) := by
  refine ⟨?_, ?_, ?_⟩
  · intro targets paused pressed m h
    obtain ⟨tg, rfl, k, hk1, hk2⟩ := check_match_some targets paused pressed m h
    exact ⟨tg, k, rfl, hk1, hk2 ▸ current_card_le pressed⟩
  · intro tg paused pressed m k hmem hcard h
    obtain ⟨tg2, htg, k2, hk1, hk2⟩ := check_match_some (some tg) paused pressed m h
    have htg2 : tg2 = tg := by injection htg.symm
    rw [htg2] at hk1
    have hkk : k = k2 := targetsList_unique tg m k k2 hmem hk1
    have := current_card_le pressed
    rw [hk2, ← hkk] at this
    omega
  · intro targets paused l l2 hperm
    rw [List.toFinset_eq_of_perm l l2 hperm]

open KeyboardManager in
/-- C9 witness: a one-key combination matches when exactly its key is held;
a four-key combination is never the returned mode; two press orders of the
same keys match identically. -/
theorem C9_hotkey_match_three_keys_witness :
    (∃ tg k,
        (some { dictation := some {"fn"},
                action := some (splitHotkey "c+d+e+f") } : Option KeyboardManager.Targets) =
          some tg ∧ (CommandMode.DICTATION, k) ∈ targetsList tg ∧ k.card ≤ 3) ∧
    check_hotkey_match
        (some { dictation := some {"fn"}, action := some (splitHotkey "c+d+e+f") })
        false ({"c", "d", "e", "f"} : Finset String) ≠ some CommandMode.ACTION ∧
    check_hotkey_match
        (some { dictation := some {"fn"}, action := some (splitHotkey "c+d+e+f") })
        false (["a", "b"] : List String).toFinset =
      check_hotkey_match
        (some { dictation := some {"fn"}, action := some (splitHotkey "c+d+e+f") })
        false (["b", "a"] : List String).toFinset := by
  refine ⟨?_, ?_, ?_⟩
  · apply C9_hotkey_match_three_keys.1
      (some { dictation := some {"fn"}, action := some (splitHotkey "c+d+e+f") })
      false ({"fn"} : Finset String) CommandMode.DICTATION
    have h1 : get_pressed_keys ({"fn"} : Finset String) = ["fn"] := by
      simp [get_pressed_keys, Finset.sort_singleton]
    simp [check_hotkey_match, targetsList, h1]
  · exact C9_hotkey_match_three_keys.2.1
      { dictation := some {"fn"}, action := some (splitHotkey "c+d+e+f") }
      false ({"c", "d", "e", "f"} : Finset String) CommandMode.ACTION
      (splitHotkey "c+d+e+f") (by decide) (by decide)
  · exact C9_hotkey_match_three_keys.2.2
      (some { dictation := some {"fn"}, action := some (splitHotkey "c+d+e+f") })
      false ["a", "b"] ["b", "a"] (by decide)

end Ito
